import Mathlib

/-!
Verification development for the flag-recording subsystem in
`src/gradio/flagging.py`.

The Python module is shallowly embedded: the file system is modelled as the
log file's content (`Option String`, `none` = file absent), Python's `csv`
module is modelled character by character (writer with `QUOTE_NONNUMERIC` and
a configurable quote character; reader as the CPython `_csv` state machine
with the default dialect), and Python exceptions are modelled as
`Except String`.  External collaborators (`component.save_flagged`, the
HuggingFace hub client) are abstracted as function parameters / trace events,
exactly at the call boundary the source uses them.
-/

/-- The single-quote character, `"'"`, the `quotechar` passed to every
`csv.writer` in `SimpleCSVLogger` / `CSVLogger` (flagging.py lines 104, 183,
199, 212). -/
def sqc : Char := Char.ofNat 39

/-- The double-quote character, the default `quotechar` of Python's `csv`
module, used by every `csv.reader` in the file (lines 108, 178, 226, 367)
and by the `csv.writer` of `HuggingFaceDatasetSaver` (line 311). -/
def dqc : Char := Char.ofNat 34

/-- Python truthiness of an `Optional[str]`: `None` and `""` are falsy.
Models `if self.encryption_key:` (line 187) and `component.label or ...`
(lines 156, 168). -/
def pyTruthyStr : Option String → Bool
  | none => false
  | some s => !s.isEmpty

/-- Python `label or fallback` for an `Optional[str]` label: the fallback is
used when the label is `None` or empty (lines 156, 168). -/
def pyOrLabel : Option String → String → String
  | none, d => d
  | some s, d => if s.isEmpty then d else s

/-- Universal-newline translation performed by `open(path, "r")` /
`open(path)` with the default `newline=None` (lines 218, 225, 366):
`"\r\n"` and a lone `"\r"` are both translated to `"\n"`. -/
def univAux : List Char → List Char
  | [] => []
  | '\r' :: '\n' :: rest => '\n' :: univAux rest
  | '\r' :: rest => '\n' :: univAux rest
  | c :: rest => c :: univAux rest

/-- Universal-newline translation on strings (see `univAux`). -/
def univNewlines (s : String) : String := String.mk (univAux s.data)

/-- Parser modes of the CPython `_csv` reader state machine
(`START_RECORD`, `START_FIELD`, `IN_FIELD`, `IN_QUOTED_FIELD`,
`QUOTE_IN_QUOTED_FIELD`, `EAT_CRNL`). -/
inductive PMode
  | startRec | startField | inField | quoted | quoteQ | eatCR

/-- Close the current field: completed fields are kept in reverse order,
the current field's characters in reverse order. -/
def fieldDone (fs : List String) (cs : List Char) : List String :=
  String.mk cs.reverse :: fs

/-- Close the current record. -/
def recDone (recs : List (List String)) (fs : List String) (cs : List Char) :
    List (List String) :=
  (fieldDone fs cs).reverse :: recs

/-- The CPython `_csv` reader state machine for the default dialect
(delimiter `,`, `doublequote=True`, no escape character, non-strict),
with quote character `qc`, processing the character stream of the text the
reader iterates over.  A record ends at `\n` or `\r`; a blank line yields an
empty record (as `csv.reader` does); characters following a bare `\r` on the
same line raise the `_csv.Error` "new-line character seen in unquoted field"
exactly as CPython does when the line iterator did not split at that `\r`.
Arguments: mode, completed records (reversed), completed fields of the
current record (reversed), characters of the current field (reversed),
remaining input. -/
def pyCsvRun (qc : Char) :
    PMode → List (List String) → List String → List Char → List Char →
    Except String (List (List String))
  | .startRec, recs, _, _, [] => .ok recs.reverse
  | .eatCR, recs, _, _, [] => .ok recs.reverse
  | .startField, recs, fs, cs, [] => .ok (recDone recs fs cs).reverse
  | .inField, recs, fs, cs, [] => .ok (recDone recs fs cs).reverse
  | .quoted, recs, fs, cs, [] => .ok (recDone recs fs cs).reverse
  | .quoteQ, recs, fs, cs, [] => .ok (recDone recs fs cs).reverse
  | .startRec, recs, _, _, c :: rest =>
    if c = '\n' then pyCsvRun qc .startRec ([] :: recs) [] [] rest
    else if c = '\r' then pyCsvRun qc .eatCR ([] :: recs) [] [] rest
    else if c = qc then pyCsvRun qc .quoted recs [] [] rest
    else if c = ',' then pyCsvRun qc .startField recs [""] [] rest
    else pyCsvRun qc .inField recs [] [c] rest
  | .startField, recs, fs, cs, c :: rest =>
    if c = '\n' then pyCsvRun qc .startRec (recDone recs fs cs) [] [] rest
    else if c = '\r' then pyCsvRun qc .eatCR (recDone recs fs cs) [] [] rest
    else if c = qc then pyCsvRun qc .quoted recs fs [] rest
    else if c = ',' then pyCsvRun qc .startField recs (fieldDone fs cs) [] rest
    else pyCsvRun qc .inField recs fs [c] rest
  | .inField, recs, fs, cs, c :: rest =>
    if c = '\n' then pyCsvRun qc .startRec (recDone recs fs cs) [] [] rest
    else if c = '\r' then pyCsvRun qc .eatCR (recDone recs fs cs) [] [] rest
    else if c = ',' then pyCsvRun qc .startField recs (fieldDone fs cs) [] rest
    else pyCsvRun qc .inField recs fs (c :: cs) rest
  | .quoted, recs, fs, cs, c :: rest =>
    if c = qc then pyCsvRun qc .quoteQ recs fs cs rest
    else pyCsvRun qc .quoted recs fs (c :: cs) rest
  | .quoteQ, recs, fs, cs, c :: rest =>
    if c = qc then pyCsvRun qc .quoted recs fs (c :: cs) rest
    else if c = '\n' then pyCsvRun qc .startRec (recDone recs fs cs) [] [] rest
    else if c = '\r' then pyCsvRun qc .eatCR (recDone recs fs cs) [] [] rest
    else if c = ',' then pyCsvRun qc .startField recs (fieldDone fs cs) [] rest
    else pyCsvRun qc .inField recs fs (c :: cs) rest
  | .eatCR, recs, fs, cs, c :: rest =>
    if c = '\r' then pyCsvRun qc .eatCR recs fs cs rest
    else if c = '\n' then pyCsvRun qc .startRec recs fs cs rest
    else .error "Error: new-line character seen in unquoted field"

/-- `list(csv.reader(f))` with quote character `qc` over the text `s` the
file object yields (after any newline translation done by `open`). -/
def pyCsvParse (qc : Char) (s : String) : Except String (List (List String)) :=
  pyCsvRun qc .startRec [] [] [] s.data

/-- Double every occurrence of the quote character inside a field
(`doublequote=True`). -/
def pyEscapeQuoted (qc : Char) (s : String) : String :=
  String.mk (s.data.foldr (fun c acc => if c = qc then c :: c :: acc else c :: acc) [])

/-- A field written quoted: `qc`, the escaped content, `qc`. -/
def pyQuoteAll (qc : Char) (s : String) : String :=
  String.mk [qc] ++ pyEscapeQuoted qc s ++ String.mk [qc]

/-- One row as written by `csv.writer(..., quoting=csv.QUOTE_NONNUMERIC,
quotechar=qc).writerow(cells)` when every cell is a Python `str` (which is
the case for every such writer call in flagging.py): every field is quoted,
fields are joined with `,`, the row is terminated with `"\r\n"`. -/
def writeRowNonnum (qc : Char) (cells : List String) : String :=
  String.intercalate "," (cells.map (pyQuoteAll qc)) ++ "\r\n"

/-- `writer.writerows(rows)` for the `QUOTE_NONNUMERIC` writer. -/
def writeRowsNonnum (qc : Char) (rows : List (List String)) : String :=
  String.join (rows.map (writeRowNonnum qc))

/-- Whether the default (`QUOTE_MINIMAL`) writer must quote a field: it
contains the delimiter, the quote character, or a newline character. -/
def needsQuote (qc : Char) (s : String) : Bool :=
  s.data.any (fun c => c = ',' || c = qc || c = '\n' || c = '\r')

/-- One field as written by the default `csv.writer` (`QUOTE_MINIMAL`). -/
def writeFieldMinimal (qc : Char) (s : String) : String :=
  if needsQuote qc s then pyQuoteAll qc s else s

/-- One row as written by the default `csv.writer` (line 311): minimal
quoting; a row consisting of a single empty field is written quoted (CPython
writes `""` there to keep the row distinguishable from a blank line). -/
def writeRowMinimal (qc : Char) (cells : List String) : String :=
  match cells with
  | [""] => pyQuoteAll qc "" ++ "\r\n"
  | _ => String.intercalate "," (cells.map (writeFieldMinimal qc)) ++ "\r\n"

/-- A flagging component as the loggers see it: its `label`
(`Optional[str]`) and its `save_flagged` collaborator, abstracted as a
function from the sample value (`none` = Python `None`) to the reference
string it returns.  The destination directory and encryption key arguments
the source passes are fixed per logger instance and absorbed into the
function. -/
structure Comp where
  label : Option String
  save : Option String → String

/-- The loop of `CSVLogger.flag` lines 151-162, over
`enumerate(zip(self.components, flag_data))`: builds the row cells and the
list of indices whose `save_flagged` collaborator was invoked.  A `None`
sample contributes `""` without invoking `save_flagged`; any other sample
contributes the `save_flagged` return value.  `idx` is the enumeration
offset. -/
def csvLoggerRowAux : List (Comp × Option String) → Nat → List String × List Nat
  | [], _ => ([], [])
  | (c, s) :: t, idx =>
    let r := csvLoggerRowAux t (idx + 1)
    match s with
    | none => ("" :: r.1, r.2)
    | some v => (c.save (some v) :: r.1, idx :: r.2)

/-- Cells of the appended record and invoked serializer indices for
`CSVLogger.flag` (lines 151-162). -/
def csvLoggerRow (comps : List Comp) (flag_data : List (Option String)) :
    List String × List Nat :=
  csvLoggerRowAux (comps.zip flag_data) 0

/-- The header row built by `CSVLogger.flag` on a fresh file (lines
166-174): one name per component (`component.label or "component {idx}"`)
followed by `"flag"`, `"username"`, `"timestamp"`. -/
def csvHeaders (comps : List Comp) : List String :=
  (comps.enum.map (fun p => pyOrLabel p.2.label ("component " ++ toString p.1)))
    ++ ["flag", "username", "timestamp"]

/-- `CSVLogger.flag.replace_flag_at_index` (lines 176-185): parse the whole
text with `csv.reader` (default dialect, double-quote quote character), take
`content[0]` as the header (IndexError on an empty parse), look up the
column named `flag` (`header.index("flag")`, ValueError when absent), assign
`content[flag_index][flag_col_index] = flag_option` (IndexError when either
index is out of range), and re-serialize every row with the
`QUOTE_NONNUMERIC` single-quote writer.  A `None` flag_option is written by
that writer as an empty quoted field, i.e. exactly like `""`. -/
def replace_flag_at_index (flag_option : Option String) (flag_index : Nat)
    (file_content : String) : Except String String :=
  match pyCsvParse dqc file_content with
  | .error e => .error e
  | .ok content =>
    match content.head? with
    | none => .error "IndexError: list index out of range"
    | some header =>
      match header.findIdx? (fun c => c = "flag") with
      | none => .error "ValueError: flag is not in list"
      | some flag_col_index =>
        match content.get? flag_index with
        | none => .error "IndexError: list index out of range"
        | some row =>
          if flag_col_index < row.length then
            .ok (writeRowsNonnum sqc
              (content.set flag_index (row.set flag_col_index (flag_option.getD ""))))
          else .error "IndexError: list assignment index out of range"

/-- Configuration of a `CSVLogger` instance after `setup` (lines 128-137). -/
structure CSVCfg where
  components : List Comp
  encryption_key : Option String

/-- `CSVLogger.flag` (lines 139-227).  The log file is `file` (`none` =
`log.csv` absent, so `is_new`).  Returns the new file content and the
returned row count, or the Python exception raised.

Branches, following the source:
* `encryption_key` truthy: both `open(log_filepath, "rb", encoding="utf-8")`
  (line 190, reached when the file exists) and
  `open(log_filepath, "wb", encoding="utf-8")` (line 204, reached otherwise)
  raise `ValueError` in Python, because binary mode does not accept an
  `encoding` argument; every encrypted call therefore fails before any
  encryption, read or write happens, so this branch is a plain error.
* `flag_index is None`: build the record cells (lines 151-165: serialized
  samples, then flag option, username and `str(datetime.datetime.now())`,
  each defaulting to `""`), append to the file — preceded by the header row
  when the file is new — using the single-quote `QUOTE_NONNUMERIC` writer
  (lines 209-216), then count rows by re-reading the file with the default
  `csv.reader` under universal-newline translation and return
  `len(rows) - 1` (lines 225-227).
* `flag_index` present: `open(log_filepath)` raises `FileNotFoundError` when
  the file is absent; otherwise the content is read with universal-newline
  translation, rewritten by `replace_flag_at_index`, written back in place
  (lines 217-224), and the row count of the new file is returned. -/
def CSVLogger_flag (cfg : CSVCfg) (file : Option String)
    (flag_data : List (Option String)) (flag_option : Option String)
    (flag_index : Option Nat) (username : Option String) (now : String) :
    Except String (Option String × Int) :=
  if pyTruthyStr cfg.encryption_key then
    .error "ValueError: binary mode does not take an encoding argument"
  else
    match flag_index with
    | none =>
      let csv_data := (csvLoggerRow cfg.components flag_data).1
        ++ [flag_option.getD "", username.getD "", now]
      let headerPart :=
        if file.isNone then writeRowNonnum sqc (csvHeaders cfg.components) else ""
      let newContent := file.getD "" ++ headerPart ++ writeRowNonnum sqc csv_data
      match pyCsvParse dqc (univNewlines newContent) with
      | .error e => .error e
      | .ok rows => .ok (some newContent, (rows.length : Int) - 1)
    | some i =>
      match file with
      | none => .error "FileNotFoundError"
      | some content =>
        match replace_flag_at_index flag_option i (univNewlines content) with
        | .error e => .error e
        | .ok replaced =>
          match pyCsvParse dqc (univNewlines replaced) with
          | .error e => .error e
          | .ok rows => .ok (some replaced, (rows.length : Int) - 1)

/-- `SimpleCSVLogger.flag` (lines 82-109): serialize every sample
(`save_flagged` is called even for `None` samples, line 95-100), append the
row with the single-quote `QUOTE_NONNUMERIC` writer — no header is ever
written — then return `len(rows) - 1` counted by the default `csv.reader`
over the re-read file.  `flag_option`, `flag_index` and `username` are
accepted and ignored, as in the source. -/
def SimpleCSVLogger_flag (comps : List Comp) (file : Option String)
    (flag_data : List (Option String)) (flag_option : Option String)
    (flag_index : Option Nat) (username : Option String) :
    Except String (Option String × Int) :=
  let csv_data := (comps.zip flag_data).map (fun p => p.1.save p.2)
  let newContent := file.getD "" ++ writeRowNonnum sqc csv_data
  match pyCsvParse dqc (univNewlines newContent) with
  | .error e => .error e
  | .ok rows => .ok (some newContent, (rows.length : Int) - 1)

/-- The encoder of the Log Codec as `CSVLogger` implements it: the
single-quote `QUOTE_NONNUMERIC` writer applied to the header and the rows
(lines 209-216). -/
def encodeAll (header : List String) (rows : List (List String)) : String :=
  writeRowsNonnum sqc (header :: rows)

/-- The decoder of the Log Codec as `CSVLogger` implements it: the file is
read back with universal-newline translation and parsed by the default
`csv.reader` (lines 176-180, 218, 225-226); the first row is the header. -/
def decodeAll (text : String) :
    Except String (List String × List (List String)) :=
  match pyCsvParse dqc (univNewlines text) with
  | .error e => .error e
  | .ok [] => .error "IndexError: list index out of range"
  | .ok (h :: rs) => .ok (h, rs)

/-- File-system operations performed by the unencrypted row-update path of
`CSVLogger.flag` (lines 217-224). -/
inductive FileOp
  | readF (path : String)
  | writeTrunc (path : String) (content : String)
  | writeTmp (path : String) (content : String)
  | rename (src : String) (dst : String)

/-- The file operations of the unencrypted row-update path (lines 217-224):
`open(log_filepath)` reads (with universal-newline translation), then
`open(log_filepath, "w", newline="")` re-opens the same path truncating it
and writes the rewritten content.  The write only happens when
`replace_flag_at_index` returned normally. -/
def csvLoggerUpdateOps (content : String) (flag_index : Nat)
    (flag_option : Option String) : Except String (List FileOp) :=
  match replace_flag_at_index flag_option flag_index (univNewlines content) with
  | .error e => .error e
  | .ok replaced => .ok [FileOp.readF "log.csv", FileOp.writeTrunc "log.csv" replaced]

/-- Whether an operation sequence performs any rename (the
write-to-temporary-then-rename discipline necessarily contains one). -/
def usesTempThenRename (ops : List FileOp) : Bool :=
  ops.any (fun o => match o with | FileOp.rename _ _ => true | _ => false)

/-- A component as `HuggingFaceDatasetSaver` sees it.  Labels are assumed
present (the source would otherwise write Python `None` into the header).
`isFilePreview` models membership in `file_preview_types` (lines 314-319). -/
structure HFComp where
  label : String
  isFilePreview : Bool
  save : Option String → String

/-- The header row built by `HuggingFaceDatasetSaver.flag` on a fresh file
(lines 322-347): for every component of `zip(components, flag_data)` the
label is appended twice, plus `label + " file"` for file-preview components;
then `"flag"`. -/
def hfHeaders (zipped : List (HFComp × Option String)) : List String :=
  (zipped.map (fun p =>
      [p.1.label, p.1.label]
        ++ (if p.1.isFilePreview then [p.1.label ++ " file"] else []))).join
    ++ ["flag"]

/-- The data row built by `HuggingFaceDatasetSaver.flag` (lines 349-361):
for every component of `zip(components, flag_data)` the `save_flagged`
result, plus the `{repo}/resolve/main/{filepath}` preview URL for
file-preview components; then the flag option (or `""`). -/
def hfRow (repoUrl : String) (zipped : List (HFComp × Option String))
    (flag_option : Option String) : List String :=
  (zipped.map (fun p =>
      let fp := p.1.save p.2
      [fp] ++ (if p.1.isFilePreview then [repoUrl ++ "/resolve/main/" ++ fp] else []))).join
    ++ [flag_option.getD ""]

/-- Externally visible events of one `HuggingFaceDatasetSaver.flag` call:
the `git_pull` (line 305), the append to `data.csv`, the one-time
`dataset_infos.json` dump (lines 363-364), and the `push_to_hub` with its
commit message (line 369). -/
inductive HFEvent
  | pull
  | appendLog (content : String)
  | writeInfos
  | push (msg : String)

/-- `True` exactly for the `pull` event. -/
def isPull : HFEvent → Bool
  | HFEvent.pull => true
  | _ => false

/-- `True` exactly for a `push` event. -/
def isPush : HFEvent → Bool
  | HFEvent.push _ => true
  | _ => false

/-- `HuggingFaceDatasetSaver.flag` (lines 298-371).  `file` is the content
of `data.csv` in the local mirror (`none` = absent).  The call pulls, then
appends — header first when the file is new — with the default
(`QUOTE_MINIMAL`, double-quote) writer, dumps `dataset_infos.json` when the
file is new, counts `len(rows) - 1` over the re-read file, and pushes with
commit message `"Flagged sample #{line_count}"`.  `flag_index` and
`username` are accepted and ignored, as in the source.  Returns the new
file content, the returned count, and the event trace.  `hfAppended` is the
text the call appends to `data.csv` (header row first when the file is
new). -/
def hfAppended (repoUrl : String) (comps : List HFComp) (file : Option String)
    (flag_data : List (Option String)) (flag_option : Option String) : String :=
  (if file.isNone then writeRowMinimal dqc (hfHeaders (comps.zip flag_data)) else "")
    ++ writeRowMinimal dqc (hfRow repoUrl (comps.zip flag_data) flag_option)

/-- The content of `data.csv` after one `HuggingFaceDatasetSaver.flag`
append (`hfAppended` written after the previous content). -/
def hfNewContent (repoUrl : String) (comps : List HFComp) (file : Option String)
    (flag_data : List (Option String)) (flag_option : Option String) : String :=
  file.getD "" ++ hfAppended repoUrl comps file flag_data flag_option

def HFDS_flag (repoUrl : String) (comps : List HFComp) (file : Option String)
    (flag_data : List (Option String)) (flag_option : Option String)
    (flag_index : Option Nat) (username : Option String) :
    Except String (Option String × Int × List HFEvent) :=
  match pyCsvParse dqc (univNewlines (hfNewContent repoUrl comps file flag_data flag_option)) with
  | .error e => .error e
  | .ok rows =>
    let n : Int := (rows.length : Int) - 1
    .ok (some (hfNewContent repoUrl comps file flag_data flag_option), n,
      HFEvent.pull
        :: HFEvent.appendLog (hfAppended repoUrl comps file flag_data flag_option)
        :: ((if file.isNone then [HFEvent.writeInfos] else [])
          ++ [HFEvent.push ("Flagged sample #" ++ toString n)]))

/-- A `CSVLogger` configuration with one component labelled `a`, whose
serializer returns the sample value itself, and no encryption key. -/
def demoCfg : CSVCfg := ⟨[⟨some "a", fun s => s.getD ""⟩], none⟩

/-- The log file produced by three appends of `demoCfg` (checked against the
append path in the theorems below): quoted header plus records r0, r1, r2. -/
def demoFile3 : String :=
  writeRowsNonnum sqc
    [["a", "flag", "username", "timestamp"],
     ["x0", "f0", "u0", "t0"], ["x1", "f1", "u1", "t1"], ["x2", "f2", "u2", "t2"]]

/-- A log file with an unquoted header and three data rows, as an external
writer (or the `HuggingFaceDatasetSaver` dialect) would produce it; on this
file the update path's `csv.reader` does find the `flag` column. -/
def plainFile : String := "h,flag\nA,f0\nB,f1\nC,f2\n"

/-- Structure of a successful `replace_flag_at_index` run: the text parsed,
the `flag` column was found in the header, row `flag_index` exists, and the
result is the single-quote re-serialization of the parsed rows with exactly
that one cell overwritten. -/
theorem replace_ok_shape (opt : Option String) (i : Nat) (s r : String)
    (h : replace_flag_at_index opt i s = .ok r) :
    ∃ rows head j row,
      pyCsvParse dqc s = .ok rows ∧ rows.head? = some head ∧
      head.findIdx? (fun c => c = "flag") = some j ∧
      rows.get? i = some row ∧
      r = writeRowsNonnum sqc (rows.set i (row.set j (opt.getD ""))) := by
  unfold replace_flag_at_index at h
  split at h
  · exact absurd h (by simp)
  next content hp =>
    split at h
    · exact absurd h (by simp)
    next header hh =>
      split at h
      · exact absurd h (by simp)
      next j hj =>
        split at h
        · exact absurd h (by simp)
        next row hrow =>
          split at h
          · exact ⟨content, header, j, row, hp, hh, hj, hrow,
              (Except.ok.injEq _ _).mp h.symm⟩
          · exact absurd h (by simp)

/-- Every serializer-call index recorded by `csvLoggerRowAux` is at least
the enumeration offset. -/
theorem csvRowAux_ge (l : List (Comp × Option String)) (idx0 : Nat) :
    ∀ j ∈ (csvLoggerRowAux l idx0).2, idx0 ≤ j := by
  induction l generalizing idx0 with
  | nil => simp [csvLoggerRowAux]
  | cons p t ih =>
    rcases p with ⟨c, s⟩
    cases s with
    | none =>
      intro j hj
      simp only [csvLoggerRowAux] at hj
      exact Nat.le_trans (Nat.le_succ idx0) (ih (idx0 + 1) j hj)
    | some v =>
      intro j hj
      simp only [csvLoggerRowAux, List.mem_cons] at hj
      rcases hj with rfl | hj
      · exact Nat.le_refl _
      · exact Nat.le_trans (Nat.le_succ idx0) (ih (idx0 + 1) j hj)

/-- Cell- and call-structure of `csvLoggerRowAux` at position `i`: a `none`
sample yields the empty cell and no serializer call at enumeration index
`idx0 + i`; a `some` sample yields the serializer result and a recorded
call. -/
theorem csvRowAux_spec (l : List (Comp × Option String)) (idx0 i : Nat)
    (h : i < l.length) :
    ((l.get ⟨i, h⟩).2 = none →
      (csvLoggerRowAux l idx0).1.get? i = some ""
        ∧ (idx0 + i) ∉ (csvLoggerRowAux l idx0).2)
    ∧ ∀ v, (l.get ⟨i, h⟩).2 = some v →
      (csvLoggerRowAux l idx0).1.get? i = some ((l.get ⟨i, h⟩).1.save (some v))
        ∧ (idx0 + i) ∈ (csvLoggerRowAux l idx0).2 := by
  induction l generalizing idx0 i with
  | nil => exact absurd h (by simp)
  | cons p t ih =>
    rcases p with ⟨c, s⟩
    cases i with
    | zero =>
      cases s with
      | none =>
        refine ⟨fun _ => ⟨rfl, fun hmem => ?_⟩, fun v hv => ?_⟩
        · have hge := csvRowAux_ge t (idx0 + 1) _
            (by simpa [csvLoggerRowAux] using hmem)
          omega
        · exact absurd hv (by simp)
      | some v0 =>
        refine ⟨fun hv => absurd hv (by simp), fun v hv => ?_⟩
        have hv0 : v0 = v := by simpa using hv
        subst hv0
        exact ⟨rfl, by simp [csvLoggerRowAux]⟩
    | succ i' =>
      have hlt : i' < t.length := by simpa using Nat.lt_of_succ_lt_succ h
      have hshift : idx0 + (i' + 1) = (idx0 + 1) + i' := by omega
      have hspec := ih (idx0 + 1) i' hlt
      cases s with
      | none =>
        refine ⟨fun hv => ?_, fun v hv => ?_⟩
        · have := hspec.1 (by simpa using hv)
          exact ⟨by simpa [csvLoggerRowAux] using this.1,
            by rw [hshift]; simpa [csvLoggerRowAux] using this.2⟩
        · have := hspec.2 v (by simpa using hv)
          exact ⟨by simpa [csvLoggerRowAux] using this.1,
            by rw [hshift]; simpa [csvLoggerRowAux] using this.2⟩
      | some v0 =>
        refine ⟨fun hv => ?_, fun v hv => ?_⟩
        · have := hspec.1 (by simpa using hv)
          exact ⟨by simpa [csvLoggerRowAux] using this.1, by
            rw [hshift]
            intro hmem
            rcases (by simpa [csvLoggerRowAux, List.mem_cons] using hmem :
                (idx0 + 1) + i' = idx0 ∨ _) with heq | hmem'
            · omega
            · exact this.2 hmem'⟩
        · have := hspec.2 v (by simpa using hv)
          exact ⟨by simpa [csvLoggerRowAux] using this.1,
            by rw [hshift]; simp [csvLoggerRowAux, List.mem_cons]; right; exact this.2⟩

/-- C1: the claim states `rowIndex` is a zero-based index into the data rows
only, so that after appending r0, r1, r2, `updateFlagColumn(1, "bad")`
changes only r1.  The code violates this twice over: (a) on the file the
appends themselves produce, the update path raises `ValueError` — the header
was written with the single-quote quote character, the update path parses
with the default double quote, so no header cell equals `"flag"`; (b) on a
file whose header the reader can resolve, `content[flag_index]` indexes the
parsed rows including the header, so index 1 rewrites r0's flag cell, not
r1's. -/
theorem csvlogger_update_addressing_bug :
    ((do
      let p1 ← CSVLogger_flag demoCfg none [some "x0"] (some "f0") none (some "u0") "t0"
      let p2 ← CSVLogger_flag demoCfg p1.1 [some "x1"] (some "f1") none (some "u1") "t1"
      let p3 ← CSVLogger_flag demoCfg p2.1 [some "x2"] (some "f2") none (some "u2") "t2"
      CSVLogger_flag demoCfg p3.1 [] (some "bad") (some 1) none "t3") :
        Except String (Option String × Int))
      = .error "ValueError: flag is not in list"
    ∧ CSVLogger_flag demoCfg (some plainFile) [] (some "bad") (some 1) none "t3"
      = .ok (some (writeRowsNonnum sqc
          [["h", "flag"], ["A", "bad"], ["B", "f1"], ["C", "f2"]]), 3) :=
  ⟨rfl, rfl⟩

/-- C2: the claim states `decodeAll(encodeAll(header, records))` reproduces
header and records exactly.  Evaluating the codec the code implements on
header `["h"]` and records `[["v"]]`: decoding the encoded text yields the
cells still wrapped in the single quotes the encoder added, because the
encoder quotes with `"'"` while the decoder uses the csv default `"`; the
round trip is not the identity. -/
theorem codec_round_trip_fails :
    decodeAll (encodeAll ["h"] [["v"]])
      = .ok ([pyQuoteAll sqc "h"], [[pyQuoteAll sqc "v"]])
    ∧ pyQuoteAll sqc "h" ≠ "h" :=
  ⟨rfl, by decide⟩

/-- C3: the claim states the header and every data record always have the
same number of cells, and a violating operation fails loudly.  The
`HuggingFaceDatasetSaver` first write for one non-media component labelled
`a` builds a 3-cell header (`a` is appended twice, then `flag`) and a 2-cell
record, and the call completes without any error. -/
theorem hfds_header_row_cardinality_bug :
    (hfHeaders [(⟨"a", false, fun s => s.getD ""⟩, some "s")]).length = 3
    ∧ (hfRow "R" [(⟨"a", false, fun s => s.getD ""⟩, some "s")] (some "g")).length = 2
    ∧ HFDS_flag "R" [⟨"a", false, fun s => s.getD ""⟩] none [some "s"] (some "g")
        none none
      = .ok (some (writeRowMinimal dqc ["a", "a", "flag"]
            ++ writeRowMinimal dqc ["s", "g"]), 1,
          [HFEvent.pull,
           HFEvent.appendLog (writeRowMinimal dqc ["a", "a", "flag"]
             ++ writeRowMinimal dqc ["s", "g"]),
           HFEvent.writeInfos,
           HFEvent.push ("Flagged sample #" ++ toString (1 : Int))]) :=
  ⟨rfl, rfl, rfl⟩

/-- C4: the claim states every variant, including the headerless
`SimpleCSVLogger`, returns a row count of exactly N after N appends.  The
first append on a fresh `SimpleCSVLogger` leaves a file holding exactly one
data row, yet returns `0`, because the count is `len(rows) - 1` even though
this logger writes no header; `CSVLogger`, which does write a header,
returns `1` for its first append. -/
theorem simple_logger_count_off_by_one :
    SimpleCSVLogger_flag [⟨none, fun s => s.getD ""⟩] none [some "s"] none none none
      = .ok (some (writeRowNonnum sqc ["s"]), 0)
    ∧ pyCsvParse dqc (univNewlines (writeRowNonnum sqc ["s"]))
      = .ok [[pyQuoteAll sqc "s"]]
    ∧ (CSVLogger_flag demoCfg none [some "x0"] (some "f0") none (some "u0") "t0").map
        Prod.snd
      = .ok 1 :=
  ⟨rfl, rfl, rfl⟩

/-- C5: the claim states the encrypted variant round-trips through the
Crypto Envelope.  In the code, any `flag` call with a truthy encryption key
raises `ValueError` before any encryption, file read or file write happens:
line 190 (`open(..., "rb", encoding="utf-8")`, reached when the file exists)
and line 204 (`open(..., "wb", encoding="utf-8")`, reached otherwise) both
pass an `encoding` to a binary-mode `open`, which Python rejects. -/
theorem csvlogger_encrypted_always_fails (cfg : CSVCfg) (file : Option String)
    (fd : List (Option String)) (fo : Option String) (fi : Option Nat)
    (u : Option String) (now : String)
    (hk : pyTruthyStr cfg.encryption_key = true) :
    CSVLogger_flag cfg file fd fo fi u now
      = .error "ValueError: binary mode does not take an encoding argument" := by
  simp [CSVLogger_flag, hk]

/-- Witness for `csvlogger_encrypted_always_fails` at a concrete encrypted
configuration and a fresh file. -/
theorem csvlogger_encrypted_always_fails_witness :
    CSVLogger_flag ⟨[], some "k"⟩ none [] none none none ""
      = .error "ValueError: binary mode does not take an encoding argument" :=
  csvlogger_encrypted_always_fails ⟨[], some "k"⟩ none [] none none none "" rfl

/-- C6 counterexample: the claim states the row-update path replaces the
file using a write-to-temporary-then-rename discipline.  The operation
sequence the code performs for a concrete successful update contains no
rename at all. -/
theorem csvlogger_update_not_temp_rename :
    (csvLoggerUpdateOps plainFile 1 (some "bad")).map usesTempThenRename
      = .ok false :=
  rfl

/-- C6 amended: the row-update path re-encodes the full file but replaces it
in place — it re-opens the same path in truncating write mode and writes the
rewritten content there; no temporary file and no rename are involved. -/
theorem csvlogger_update_in_place (content : String) (i : Nat)
    (opt : Option String) (r : String)
    (h : replace_flag_at_index opt i (univNewlines content) = .ok r) :
    csvLoggerUpdateOps content i opt
      = .ok [FileOp.readF "log.csv", FileOp.writeTrunc "log.csv" r] := by
  unfold csvLoggerUpdateOps
  rw [h]

/-- Witness for `csvlogger_update_in_place` at a concrete file and index. -/
theorem csvlogger_update_in_place_witness :
    csvLoggerUpdateOps plainFile 1 (some "bad")
      = .ok [FileOp.readF "log.csv",
          FileOp.writeTrunc "log.csv" (writeRowsNonnum sqc
            [["h", "flag"], ["A", "bad"], ["B", "f1"], ["C", "f2"]])] :=
  csvlogger_update_in_place plainFile 1 (some "bad") _ rfl

/-- C7: the claim states an out-of-range update on a 3-row file fails with
IndexError and leaves the file untouched.  On the file the logger itself
wrote (produced here by three appends), the update instead fails with
ValueError — the header lookup fails before the index is ever checked,
because of the writer/reader quote-character mismatch.  On a file whose
header the default reader can resolve, the failure is the claimed
IndexError.  In both cases the error propagates before the write-back, so
the file is untouched. -/
theorem csvlogger_out_of_range_update :
    ((do
      let p1 ← CSVLogger_flag demoCfg none [some "x0"] (some "f0") none (some "u0") "t0"
      let p2 ← CSVLogger_flag demoCfg p1.1 [some "x1"] (some "f1") none (some "u1") "t1"
      CSVLogger_flag demoCfg p2.1 [some "x2"] (some "f2") none (some "u2") "t2") :
        Except String (Option String × Int))
      = .ok (some demoFile3, 3)
    ∧ CSVLogger_flag demoCfg (some demoFile3) [] (some "x") (some 5) none "t3"
      = .error "ValueError: flag is not in list"
    ∧ CSVLogger_flag demoCfg (some plainFile) [] (some "x") (some 5) none "t3"
      = .error "IndexError: list index out of range" :=
  ⟨rfl, rfl, rfl⟩

/-- C8 counterexample: the claim states every variant dispatches to the
update path when `rowIndexToUpdate` is present, appending no new row and
ignoring `values`.  `HuggingFaceDatasetSaver.flag` with `flag_index = 0` on
a fresh store appends a header and a data row built from `values` (the file
gains a data row, count 1), and the call is identical to the same call
without `flag_index`. -/
theorem hfds_ignores_row_index :
    HFDS_flag "R" [⟨"b", false, fun s => s.getD ""⟩] none [some "s1"] (some "g")
        (some 0) none
      = .ok (some (writeRowMinimal dqc ["b", "b", "flag"]
            ++ writeRowMinimal dqc ["s1", "g"]), 1,
          [HFEvent.pull,
           HFEvent.appendLog (writeRowMinimal dqc ["b", "b", "flag"]
             ++ writeRowMinimal dqc ["s1", "g"]),
           HFEvent.writeInfos,
           HFEvent.push ("Flagged sample #" ++ toString (1 : Int))])
    ∧ HFDS_flag "R" [⟨"b", false, fun s => s.getD ""⟩] none [some "s1"] (some "g")
        (some 0) none
      = HFDS_flag "R" [⟨"b", false, fun s => s.getD ""⟩] none [some "s1"] (some "g")
        none none :=
  ⟨rfl, rfl⟩

/-- C8 amended: only `CSVLogger.flag` dispatches on the row index.  When
`flag_index` is present (and no encryption key is set), the call is
independent of `flag_data`, `username` and the timestamp, and on success the
new file is the re-serialization of the parsed old rows with exactly one
cell overwritten — the number of records is preserved, so no row is
appended — and the returned count is that of the resulting file. -/
theorem csvlogger_update_dispatch (cfg : CSVCfg) (c : String)
    (fd fd' : List (Option String)) (opt : Option String) (i : Nat)
    (u u' : Option String) (now now' : String) (st : Option String) (n : Int)
    (hk : pyTruthyStr cfg.encryption_key = false)
    (h : CSVLogger_flag cfg (some c) fd opt (some i) u now = .ok (st, n)) :
    CSVLogger_flag cfg (some c) fd' opt (some i) u' now' = .ok (st, n)
    ∧ ∃ rows row j,
        pyCsvParse dqc (univNewlines c) = .ok rows ∧
        rows.get? i = some row ∧
        st = some (writeRowsNonnum sqc (rows.set i (row.set j (opt.getD "")))) ∧
        (rows.set i (row.set j (opt.getD ""))).length = rows.length := by
  refine ⟨h, ?_⟩
  rcases hr : replace_flag_at_index opt i (univNewlines c) with e | r
  · rw [show CSVLogger_flag cfg (some c) fd opt (some i) u now = .error e from by
      simp [CSVLogger_flag, hk, hr]] at h
    exact absurd h (by simp)
  · obtain ⟨rows, head, j, row, hp, hh, hj, hrow, hreq⟩ :=
      replace_ok_shape opt i _ r hr
    rcases hpr : pyCsvParse dqc (univNewlines r) with e2 | rows2
    · rw [show CSVLogger_flag cfg (some c) fd opt (some i) u now = .error e2 from by
        simp [CSVLogger_flag, hk, hr, hpr]] at h
      exact absurd h (by simp)
    · rw [show CSVLogger_flag cfg (some c) fd opt (some i) u now
          = .ok (some r, (rows2.length : Int) - 1) from by
        simp [CSVLogger_flag, hk, hr, hpr]] at h
      have hst : st = some r := by
        simp only [Except.ok.injEq, Prod.mk.injEq] at h
        exact h.1.symm
      exact ⟨rows, row, j, hp, hrow, by rw [hst, hreq], by simp⟩

/-- Witness for `csvlogger_update_dispatch`: updating row index 2 of the
plain 3-data-row file, with differing `flag_data`, `username` and timestamp
on the two calls. -/
theorem csvlogger_update_dispatch_witness :
    CSVLogger_flag demoCfg (some plainFile) [] (some "z") (some 2) none "t2"
      = .ok (some (writeRowsNonnum sqc
          [["h", "flag"], ["A", "f0"], ["B", "z"], ["C", "f2"]]), 3)
    ∧ ∃ rows row j,
        pyCsvParse dqc (univNewlines plainFile) = .ok rows ∧
        rows.get? 2 = some row ∧
        (some (writeRowsNonnum sqc
            [["h", "flag"], ["A", "f0"], ["B", "z"], ["C", "f2"]]) : Option String)
          = some (writeRowsNonnum sqc (rows.set 2 (row.set j ((some "z").getD "")))) ∧
        (rows.set 2 (row.set j ((some "z").getD ""))).length = rows.length :=
  csvlogger_update_dispatch demoCfg plainFile [some "ignored"] [] (some "z") 2
    (some "u") none "t" "t2"
    (some (writeRowsNonnum sqc [["h", "flag"], ["A", "f0"], ["B", "z"], ["C", "f2"]]))
    3 rfl rfl

/-- C9: every `HuggingFaceDatasetSaver.flag` call performs exactly one pull,
as the first action, before any local mutation; exactly one push, as the
last action, after the write; and the push commit message embeds the
post-write row count — the returned count `n`, which equals the number of
data rows (records minus the header line) of the file after the write. -/
theorem hfds_remote_sequencing (repoUrl : String) (comps : List HFComp)
    (file : Option String) (fd : List (Option String)) (fo : Option String)
    (fi : Option Nat) (u : Option String) (st : Option String) (n : Int)
    (tr : List HFEvent)
    (h : HFDS_flag repoUrl comps file fd fo fi u = .ok (st, n, tr)) :
    ∃ mid c rows,
      tr = HFEvent.pull
        :: (mid ++ [HFEvent.push ("Flagged sample #" ++ toString n)]) ∧
      (∀ e ∈ mid, isPull e = false ∧ isPush e = false) ∧
      st = some c ∧
      pyCsvParse dqc (univNewlines c) = .ok rows ∧
      n = (rows.length : Int) - 1 := by
  unfold HFDS_flag at h
  split at h
  · exact absurd h (by simp)
  next rows hp =>
    simp only [Except.ok.injEq, Prod.mk.injEq] at h
    obtain ⟨hst, hn, htr⟩ := h
    subst hn
    refine ⟨HFEvent.appendLog (hfAppended repoUrl comps file fd fo)
        :: (if file.isNone then [HFEvent.writeInfos] else []),
      hfNewContent repoUrl comps file fd fo, rows, htr.symm, ?_, hst.symm, hp, rfl⟩
    intro e he
    rcases List.mem_cons.mp he with rfl | he2
    · exact ⟨rfl, rfl⟩
    · cases hfn : file.isNone
      · rw [hfn] at he2
        simp at he2
      · rw [hfn] at he2
        simp at he2
        subst he2
        exact ⟨rfl, rfl⟩

/-- Witness for `hfds_remote_sequencing`: one flag call with one component
labelled `a`, sample `s`, flag option `good`, on a fresh store. -/
theorem hfds_remote_sequencing_witness :
    ∃ mid c rows,
      [HFEvent.pull,
       HFEvent.appendLog (writeRowMinimal dqc ["a", "a", "flag"]
         ++ writeRowMinimal dqc ["s", "good"]),
       HFEvent.writeInfos,
       HFEvent.push ("Flagged sample #" ++ toString (1 : Int))]
        = HFEvent.pull
          :: (mid ++ [HFEvent.push ("Flagged sample #" ++ toString (1 : Int))]) ∧
      (∀ e ∈ mid, isPull e = false ∧ isPush e = false) ∧
      (some (writeRowMinimal dqc ["a", "a", "flag"]
        ++ writeRowMinimal dqc ["s", "good"]) : Option String) = some c ∧
      pyCsvParse dqc (univNewlines c) = .ok rows ∧
      (1 : Int) = (rows.length : Int) - 1 :=
  hfds_remote_sequencing "R" [⟨"a", false, fun s => s.getD ""⟩] none [some "s"]
    (some "good") none none _ 1 _ rfl

/-- C10: in the `CSVLogger` append path, for every position of
`enumerate(zip(components, flag_data))`, a `None` sample yields the empty
string as the recorded cell and `save_flagged` is not invoked for that
component, while a non-`None` sample yields the `save_flagged` return value
as the cell and the serializer is invoked. -/
theorem csvlogger_none_sample_handling (comps : List Comp)
    (fd : List (Option String)) (i : Nat) (h : i < (comps.zip fd).length) :
    (((comps.zip fd).get ⟨i, h⟩).2 = none →
      (csvLoggerRow comps fd).1.get? i = some ""
        ∧ i ∉ (csvLoggerRow comps fd).2)
    ∧ ∀ v, ((comps.zip fd).get ⟨i, h⟩).2 = some v →
      (csvLoggerRow comps fd).1.get? i
          = some (((comps.zip fd).get ⟨i, h⟩).1.save (some v))
        ∧ i ∈ (csvLoggerRow comps fd).2 := by
  have hs := csvRowAux_spec (comps.zip fd) 0 i h
  simpa [csvLoggerRow] using hs

/-- Witness for `csvlogger_none_sample_handling`: two components, samples
`[None, "v"]`; the first cell is empty with no serializer call, the second
cell is the serializer result with a recorded call. -/
theorem csvlogger_none_sample_handling_witness :
    ((csvLoggerRow [⟨some "a", fun s => s.getD ""⟩, ⟨some "b", fun s => s.getD ""⟩]
        [none, some "v"]).1.get? 0 = some ""
      ∧ 0 ∉ (csvLoggerRow [⟨some "a", fun s => s.getD ""⟩, ⟨some "b", fun s => s.getD ""⟩]
        [none, some "v"]).2)
    ∧ ((csvLoggerRow [⟨some "a", fun s => s.getD ""⟩, ⟨some "b", fun s => s.getD ""⟩]
        [none, some "v"]).1.get? 1 = some "v"
      ∧ 1 ∈ (csvLoggerRow [⟨some "a", fun s => s.getD ""⟩, ⟨some "b", fun s => s.getD ""⟩]
        [none, some "v"]).2) := by
  constructor
  · exact (csvlogger_none_sample_handling
      [⟨some "a", fun s => s.getD ""⟩, ⟨some "b", fun s => s.getD ""⟩]
      [none, some "v"] 0 (by decide)).1 rfl
  · exact (csvlogger_none_sample_handling
      [⟨some "a", fun s => s.getD ""⟩, ⟨some "b", fun s => s.getD ""⟩]
      [none, some "v"] 1 (by decide)).2 "v" rfl
